import Mathlib

/-!
Shallow embedding of `src/mcp_agent/logging/transport.py`: event transports
(no-op, console, batching HTTP) and the `AsyncEventBus`.

Python coroutines are modelled as pure state-transformer functions.  External
effects (the HTTP POST outcome, the ambient tracing span, the behaviour of a
registered listener's lifecycle hooks, the transport outcome seen by the bus)
are supplied as oracle arguments.  A caught Python exception is modelled by a
`raised := false` field in the effect record of the function that catches it;
a propagating exception by `raised := true`.
-/

set_option autoImplicit false

/-- The `Event` record (from `mcp_agent.logging.events`), restricted to the
fields this module reads or writes.  `data` and `context` are opaque payloads,
modelled as optional strings; `timestamp` is kept in its ISO-8601 string form
(`timestamp.isoformat()` is then the identity). -/
structure Event where
  timestamp : String
  type : String
  name : Option String
  «namespace» : String
  message : String
  data : Option String
  trace_id : Option String
  span_id : Option String
  context : Option String
deriving DecidableEq, Repr

/-- One element of the JSON array `events_data` built by `HTTPTransport._flush`:
the dict with keys timestamp, type, name, namespace, message, data, trace_id,
span_id, context. -/
structure EventDict where
  timestamp : String
  type : String
  name : Option String
  «namespace» : String
  message : String
  data : Option String
  trace_id : Option String
  span_id : Option String
  context : Option String
deriving DecidableEq, Repr

/-- The per-event dict construction inside `HTTPTransport._flush`
(`event.context.dict() if event.context else None` is modelled by the opaque
context payload itself). -/
def eventToDict (e : Event) : EventDict :=
  { timestamp := e.timestamp
    type := e.type
    name := e.name
    «namespace» := e.«namespace»
    message := e.message
    data := e.data
    trace_id := e.trace_id
    span_id := e.span_id
    context := e.context }

/-- Outcome of the HTTP POST performed by `_flush`: a response with a status
code and body text, or a transport-level exception (connection failure,
timeout) with its message. -/
inductive PostOutcome where
  | resp (status : Nat) (body : String)
  | exn (msg : String)
deriving DecidableEq, Repr

/-- Observable effect of one `_flush` call: the serialized payload POSTed (if
any POST was attempted), the error messages printed, and whether an exception
escaped the call. -/
structure FlushEffect where
  posted : Option (List EventDict)
  logs : List String
  raised : Bool
deriving DecidableEq, Repr

/-- State of an `HTTPTransport`: configuration plus the mutable batch buffer
and the session handle (`session = true` iff `_session` is open).  The
`asyncio.Lock` serializes `send_event` bodies; in this sequential model each
call runs atomically, so the lock has no separate state. -/
structure HTTPTransport where
  endpoint : String
  headers : List (String × String)
  batch_size : Nat
  timeout : Nat
  batch : List Event
  session : Bool
deriving DecidableEq, Repr

/-- `HTTPTransport.__init__`: empty batch, no session. -/
def HTTPTransport.init (endpoint : String) (headers : List (String × String))
    (batch_size : Nat) (timeout : Nat) : HTTPTransport :=
  { endpoint := endpoint, headers := headers, batch_size := batch_size
    timeout := timeout, batch := [], session := false }

/-- `HTTPTransport._flush`: no-op on an empty batch; otherwise opens the
session if needed, serializes the whole batch to one JSON array, POSTs it, and
— in the `try/except/finally` — logs a status ≥ 400 or a transport exception
without re-raising, and clears the batch in `finally` on every path. -/
def HTTPTransport._flush (t : HTTPTransport) (o : PostOutcome) :
    HTTPTransport × FlushEffect :=
  if t.batch.isEmpty then
    (t, { posted := none, logs := [], raised := false })
  else
    let t1 : HTTPTransport := if t.session then t else { t with session := true }
    let payload := t1.batch.map eventToDict
    let ep := t1.endpoint
    let logs : List String :=
      match o with
      | .resp status body =>
          if status ≥ 400 then
            [s!"Error sending log events to {ep}. Status: {status}, Response: {body}"]
          else []
      | .exn msg => [s!"Error sending log events to {ep}: {msg}"]
    ({ t1 with batch := [] }, { posted := some payload, logs := logs, raised := false })

/-- `HTTPTransport.send_event`: under the lock, append the event to the batch;
if the batch length reached `batch_size`, flush before returning.  The second
component is the effect of the flush when one was triggered. -/
def HTTPTransport.send_event (t : HTTPTransport) (e : Event) (o : PostOutcome) :
    HTTPTransport × Option FlushEffect :=
  let t1 : HTTPTransport := { t with batch := t.batch ++ [e] }
  if t1.batch.length ≥ t1.batch_size then
    let r := t1._flush o
    (r.1, some r.2)
  else
    (t1, none)

/-- `HTTPTransport.stop`: flush any remaining events, then close the session. -/
def HTTPTransport.stop (t : HTTPTransport) (o : PostOutcome) :
    HTTPTransport × Option FlushEffect :=
  let r : HTTPTransport × Option FlushEffect :=
    if t.batch.isEmpty then (t, none)
    else
      let f := t._flush o
      (f.1, some f.2)
  ({ r.1 with session := false }, r.2)

/-- A sequence of `send_event` calls, each with the POST outcome its flush (if
any) would observe; collects the serialized payload of every flush that
occurred, in order. -/
def runSend : HTTPTransport → List (Event × PostOutcome) →
    HTTPTransport × List (List EventDict)
  | t, [] => (t, [])
  | t, (e, o) :: rest =>
    let r := t.send_event e o
    let rr := runSend r.1 rest
    (rr.1, (match r.2 with
            | some eff => eff.posted.toList
            | none => []) ++ rr.2)

/-- Whether a POST outcome is a failure in the sense of the spec: an HTTP
status ≥ 400 or a transport-level exception. -/
def PostOutcome.isFailure : PostOutcome → Bool
  | .resp status _ => status ≥ 400
  | .exn _ => true

/-- Lowercase hex digit characters as produced by Python `%x` formatting:
`0`–`9` then `a`–`f`. -/
def hexDigitChar (d : Nat) : Char :=
  if d < 10 then Char.ofNat (48 + d) else Char.ofNat (87 + d)

/-- Big-endian hex digit characters of `n`, with explicit fuel (fuel `n` is
always enough since `n / 16 < n` for `n ≠ 0`). -/
def hexCharsAux : Nat → Nat → List Char
  | 0, _ => []
  | fuel + 1, n =>
    if n = 0 then []
    else hexCharsAux fuel (n / 16) ++ [hexDigitChar (n % 16)]

/-- The digit string of Python `format(n, "x")`: at least one digit. -/
def pyHex (n : Nat) : List Char :=
  if n = 0 then [Char.ofNat 48] else hexCharsAux n n

/-- Python `format(n, "0{width}x")`: the lowercase hex digits of `n`,
left-padded with zeros to at least `width` characters (never truncated). -/
def pyFormatHex (n width : Nat) : String :=
  String.mk (List.replicate (width - (pyHex n).length) (Char.ofNat 48) ++ pyHex n)

/-- Whether a character is a lowercase hex digit (`0`–`9` or `a`–`f`). -/
def isLowerHexChar (c : Char) : Bool :=
  (48 ≤ c.toNat && c.toNat ≤ 57) || (97 ≤ c.toNat && c.toNat ≤ 102)

/-- Whether every character of a string is a lowercase hex digit. -/
def isLowerHexString (s : String) : Bool :=
  s.data.all isLowerHexChar

/-- The span context returned by `span.get_span_context()`: integer trace and
span identifiers. -/
structure SpanContext where
  trace_id : Nat
  span_id : Nat
deriving DecidableEq, Repr

/-- The ambient span returned by `trace.get_current_span()`: whether it is
recording, and its context. -/
structure Span where
  recording : Bool
  ctx : SpanContext
deriving DecidableEq, Repr

/-- Behaviour model of a registered listener: whether it is a
`LifecycleAwareListener`, and whether its `start()` / `stop()` hooks raise
when invoked (oracle for the listener's code, which lives outside this
module). -/
structure Listener where
  lifecycleAware : Bool
  startRaises : Bool
  stopRaises : Bool
deriving DecidableEq, Repr

/-- A constructed transport instance, as returned by `create_transport`. -/
inductive TransportInst where
  | noop : TransportInst
  | console : TransportInst
  | http : HTTPTransport → TransportInst
deriving DecidableEq, Repr

/-- The fields of `LoggerSettings` (from `mcp_agent.config`) that
`create_transport` reads.  `http_endpoint` is optional; Python truthiness
makes both `None` and the empty string count as unset. -/
structure LoggerSettings where
  type : String
  http_endpoint : Option String
  http_headers : Option (List (String × String))
  batch_size : Nat
  http_timeout : Nat
deriving DecidableEq, Repr

/-- Python truthiness of an optional string: `None` and `""` are falsy. -/
def optStrTruthy : Option String → Bool
  | none => false
  | some s => !(s == "")

/-- `create_transport`: dispatch on `settings.type`; `ValueError` (the
spec's `InvalidConfiguration`) is modelled as `.error`. -/
def create_transport (settings : LoggerSettings) : Except String TransportInst :=
  if settings.type = "none" then .ok .noop
  else if settings.type = "console" then .ok .console
  else if settings.type = "http" then
    if optStrTruthy settings.http_endpoint then
      .ok (.http (HTTPTransport.init (settings.http_endpoint.getD "")
        (settings.http_headers.getD []) settings.batch_size settings.http_timeout))
    else .error "HTTP endpoint required for HTTP transport"
  else
    let ty := settings.type
    .error s!"Unsupported transport type: {ty}"

/-- `Except.isOk` as a plain definition (avoids relying on library helpers). -/
def exceptIsOk {ε α : Type} : Except ε α → Bool
  | .ok _ => true
  | .error _ => false

/-- State of the `AsyncEventBus` singleton.  `queue` is the internal
`asyncio.Queue` contents, `task = true` iff `_task` holds a live background
task, `stopEventSet` is the state of `_stop_event`. -/
structure AsyncEventBus where
  transport : TransportInst
  listeners : List (String × Listener)
  queue : List Event
  task : Bool
  running : Bool
  stopEventSet : Bool
deriving DecidableEq, Repr

/-- `AsyncEventBus.__init__`: no-op transport by default, no listeners, empty
queue, no task, not running, stop event initially unset. -/
def AsyncEventBus.init (transport : Option TransportInst) : AsyncEventBus :=
  { transport := transport.getD .noop, listeners := [], queue := []
    task := false, running := false, stopEventSet := false }

/-- `AsyncEventBus.get`, with the class attribute `_instance` made explicit:
takes the current `_instance` and the optional transport argument, returns the
instance after the call (which is also the returned bus). -/
def AsyncEventBus.get (instance_ : Option AsyncEventBus)
    (transport : Option TransportInst) : AsyncEventBus :=
  match instance_ with
  | none => AsyncEventBus.init transport
  | some bus =>
    match transport with
    | none => bus
    | some t => { bus with transport := t }

/-- The listener loop in `AsyncEventBus.start`: invoke `start()` on each
lifecycle-aware listener in registration order.  Returns the names of the
listeners whose `start()` completed without raising, and the name of the first
listener whose `start()` raised (the loop aborts there), if any. -/
def runStarts : List (String × Listener) → List String × Option String
  | [] => ([], none)
  | (nm, l) :: rest =>
    if l.lifecycleAware then
      if l.startRaises then ([], some nm)
      else
        let r := runStarts rest
        (nm :: r.1, r.2)
    else runStarts rest

/-- Result of `AsyncEventBus.start`: the bus state after the call, the
lifecycle-aware listeners whose `start()` hook completed, and whether an
exception propagated out of `start`. -/
structure StartResult where
  bus : AsyncEventBus
  completed : List String
  raised : Bool
deriving DecidableEq, Repr

/-- `AsyncEventBus.start`: no-op if already running; otherwise starts each
lifecycle-aware listener in registration order — a raising `start()` hook
propagates, aborting before the stop event is cleared, `_running` is set, or
the background task is created. -/
def AsyncEventBus.start (b : AsyncEventBus) : StartResult :=
  if b.running then { bus := b, completed := [], raised := false }
  else
    let r := runStarts b.listeners
    match r.2 with
    | some _ => { bus := b, completed := r.1, raised := true }
    | none =>
      { bus := { b with stopEventSet := false, running := true, task := true }
        completed := r.1, raised := false }

/-- The listener loop at the end of `AsyncEventBus.stop`: invoke `stop()` on
each lifecycle-aware listener in registration order, with no exception
handling around the calls.  Returns the names of the listeners whose `stop()`
was invoked (the raiser included) and the name of the first raiser, if any. -/
def runStops : List (String × Listener) → List String × Option String
  | [] => ([], none)
  | (nm, l) :: rest =>
    if l.lifecycleAware then
      if l.stopRaises then ([nm], some nm)
      else
        let r := runStops rest
        (nm :: r.1, r.2)
    else runStops rest

/-- Result of `AsyncEventBus.stop`: the bus state after the call, the
lifecycle-aware listeners whose `stop()` hook was invoked, and whether an
exception propagated out of `stop`. -/
structure StopResult where
  bus : AsyncEventBus
  stopped : List String
  raised : Bool
deriving DecidableEq, Repr

/-- `AsyncEventBus.stop`: no-op if not running; otherwise clears the running
flag, sets the stop event, waits for the queue to drain (the background task
processes what is left, so the queue ends empty), cancels the task, then
invokes each lifecycle-aware listener's `stop()` — a raising hook propagates
and aborts the loop. -/
def AsyncEventBus.stop (b : AsyncEventBus) : StopResult :=
  if b.running then
    let b1 : AsyncEventBus :=
      { b with running := false, stopEventSet := true, queue := [], task := false }
    let r := runStops b.listeners
    { bus := b1, stopped := r.1, raised := r.2.isSome }
  else { bus := b, stopped := [], raised := false }

/-- The tracing-injection step of `emit`: if the current span is recording,
set `trace_id` to the 32-digit zero-padded lowercase hex of the span context's
trace id and `span_id` to its 16-digit counterpart; otherwise leave the event
untouched. -/
def stampEvent (e : Event) (span : Span) : Event :=
  if span.recording then
    { e with trace_id := some (pyFormatHex span.ctx.trace_id 32)
             span_id := some (pyFormatHex span.ctx.span_id 16) }
  else e

/-- Result of `AsyncEventBus.emit`: the bus state after the call, the event
passed to `transport.send_event` (if it was called), the event put on the
listener queue (if any), the error messages printed, and whether an exception
propagated out of `emit`. -/
structure EmitResult where
  bus : AsyncEventBus
  sentToTransport : Option Event
  enqueued : Option Event
  logs : List String
  raised : Bool
deriving DecidableEq, Repr

/-- `AsyncEventBus.emit`: no-op while not running; otherwise stamps tracing
info, forwards to the transport first (any exception from `send_event` —
supplied as the oracle `sendOutcome` — is caught and logged), then puts the
event on the internal queue. -/
def AsyncEventBus.emit (b : AsyncEventBus) (e : Event) (span : Span)
    (sendOutcome : Except String Unit) : EmitResult :=
  if b.running then
    let e1 := stampEvent e span
    let logs : List String :=
      match sendOutcome with
      | .ok _ => []
      | .error msg => [s!"Error in transport.send_event: {msg}"]
    { bus := { b with queue := b.queue ++ [e1] }
      sentToTransport := some e1, enqueued := some e1, logs := logs, raised := false }
  else
    { bus := b, sentToTransport := none, enqueued := none, logs := [], raised := false }

/-! Helper lemmas about `_flush`, `send_event` and `stop`. -/

lemma _flush_nonempty (t : HTTPTransport) (o : PostOutcome) (h : t.batch ≠ []) :
    (t._flush o).1.batch = [] ∧
    (t._flush o).1.batch_size = t.batch_size ∧
    (t._flush o).2.posted = some (t.batch.map eventToDict) ∧
    (t._flush o).2.raised = false := by
  unfold HTTPTransport._flush
  rw [if_neg (by simpa using h)]
  by_cases hs : t.session <;> simp [hs]

lemma send_event_no_flush (t : HTTPTransport) (e : Event) (o : PostOutcome)
    (h : t.batch.length + 1 < t.batch_size) :
    t.send_event e o = ({ t with batch := t.batch ++ [e] }, none) := by
  unfold HTTPTransport.send_event
  rw [if_neg (by simp; omega)]

lemma send_event_flush (t : HTTPTransport) (e : Event) (o : PostOutcome)
    (h : t.batch.length + 1 ≥ t.batch_size) :
    (t.send_event e o).1.batch = [] ∧
    (t.send_event e o).1.batch_size = t.batch_size ∧
    ∃ eff, (t.send_event e o).2 = some eff ∧
      eff.posted = some ((t.batch ++ [e]).map eventToDict) ∧
      eff.raised = false := by
  unfold HTTPTransport.send_event
  rw [if_pos (by simp; omega)]
  have h2 := _flush_nonempty { t with batch := t.batch ++ [e] } o (by simp)
  exact ⟨h2.1, h2.2.1, _, rfl, h2.2.2.1, h2.2.2.2⟩

lemma stop_empty (t : HTTPTransport) (o : PostOutcome) (h : t.batch = []) :
    t.stop o = ({ t with session := false }, none) := by
  unfold HTTPTransport.stop
  rw [if_pos (by simpa using h)]

lemma stop_nonempty (t : HTTPTransport) (o : PostOutcome) (h : t.batch ≠ []) :
    (t.stop o).1.batch = [] ∧
    ∃ eff, (t.stop o).2 = some eff ∧
      eff.posted = some (t.batch.map eventToDict) ∧
      eff.raised = false := by
  unfold HTTPTransport.stop
  rw [if_neg (by simpa using h)]
  have h2 := _flush_nonempty t o h
  exact ⟨h2.1, _, rfl, h2.2.2.1, h2.2.2.2⟩

/-- Claim C1: for every transport state and batch contents, a `send_event`
whose triggered flush sees an HTTP status ≥ 400 or a transport-level exception
does not let the exception escape, and the batch buffer is cleared after the
flush attempt. -/
theorem flush_failure_isolated_and_batch_cleared (t : HTTPTransport) (e : Event)
    (o : PostOutcome) (hfail : o.isFailure = true) :
    (∀ eff, (t.send_event e o).2 = some eff → eff.raised = false) ∧
    ((t.send_event e o).2.isSome = true → (t.send_event e o).1.batch = []) := by
  by_cases hge : t.batch.length + 1 ≥ t.batch_size
  · obtain ⟨h1, _, eff, heff, _, hr⟩ := send_event_flush t e o hge
    refine ⟨fun eff' heff' => ?_, fun _ => h1⟩
    rw [heff] at heff'
    cases heff'
    exact hr
  · rw [send_event_no_flush t e o (by omega)]
    refine ⟨fun eff h => ?_, fun h => ?_⟩ <;> simp at h

/-- Witness for C1: a concrete transport with `batch_size = 1` whose flush
gets a 500 response. -/
theorem flush_failure_isolated_witness :
    (∀ eff, ((HTTPTransport.init "http://x" [] 1 5).send_event
        ⟨"t0", "info", none, "ns", "m", none, none, none, none⟩
        (.resp 500 "oops")).2 = some eff → eff.raised = false) ∧
    (((HTTPTransport.init "http://x" [] 1 5).send_event
        ⟨"t0", "info", none, "ns", "m", none, none, none, none⟩
        (.resp 500 "oops")).2.isSome = true →
      ((HTTPTransport.init "http://x" [] 1 5).send_event
        ⟨"t0", "info", none, "ns", "m", none, none, none, none⟩
        (.resp 500 "oops")).1.batch = []) :=
  flush_failure_isolated_and_batch_cleared _ _ _ (by decide)

/-- Claim C6: after any `send_event` call returns, the buffer length never
exceeds `batch_size`, and a flush is attempted exactly when the append made
the buffer reach `batch_size`. -/
theorem send_event_buffer_bounded (t : HTTPTransport) (e : Event) (o : PostOutcome) :
    (t.send_event e o).1.batch.length ≤ t.batch_size ∧
    ((t.send_event e o).2.isSome = true ↔ t.batch.length + 1 ≥ t.batch_size) := by
  by_cases hge : t.batch.length + 1 ≥ t.batch_size
  · obtain ⟨h1, _, eff, heff, _⟩ := send_event_flush t e o hge
    rw [h1, heff]
    simpa using hge
  · rw [send_event_no_flush t e o (by omega)]
    simp only [Option.isSome_none, Bool.false_eq_true, false_iff]
    constructor
    · simp; omega
    · omega

/-- A concrete event used by the witnesses. -/
def exEvent : Event :=
  { timestamp := "2024-01-01T00:00:00", type := "info", name := none
    «namespace» := "mcp_agent", message := "hello", data := none
    trace_id := none, span_id := none, context := none }

/-- A concrete stopped bus used by the witnesses. -/
def exStoppedBus : AsyncEventBus :=
  { transport := .noop, listeners := [], queue := [], task := false
    running := false, stopEventSet := true }

/-- A concrete running bus used by the witnesses. -/
def exRunningBus : AsyncEventBus :=
  { transport := .noop, listeners := [], queue := [], task := true
    running := true, stopEventSet := false }

/-- A non-recording ambient span (no active trace). -/
def exNoSpan : Span := { recording := false, ctx := { trace_id := 0, span_id := 0 } }

/-- Claim C4: `emit` on a non-running bus is a silent no-op — it returns
without raising, the transport is not called, nothing is enqueued (so no
listener can ever receive the event), nothing is logged, and the bus state is
unchanged. -/
theorem emit_not_running_noop (b : AsyncEventBus) (e : Event) (span : Span)
    (sendOutcome : Except String Unit) (h : b.running = false) :
    b.emit e span sendOutcome =
      { bus := b, sentToTransport := none, enqueued := none, logs := [], raised := false } := by
  simp [AsyncEventBus.emit, h]

/-- Witness for C4 at a concrete stopped bus. -/
theorem emit_not_running_noop_witness :
    exStoppedBus.emit exEvent exNoSpan (.ok ()) =
      { bus := exStoppedBus, sentToTransport := none, enqueued := none
        logs := [], raised := false } :=
  emit_not_running_noop exStoppedBus exEvent exNoSpan (.ok ()) rfl

/-- Claim C5: on a running bus, a raising `transport.send_event` is caught and
logged, `emit` does not re-raise, and the (stamped) event is still placed on
the internal listener queue. -/
theorem emit_transport_error_isolated (b : AsyncEventBus) (e : Event) (span : Span)
    (msg : String) (h : b.running = true) :
    b.emit e span (.error msg) =
      { bus := { b with queue := b.queue ++ [stampEvent e span] }
        sentToTransport := some (stampEvent e span)
        enqueued := some (stampEvent e span)
        logs := [s!"Error in transport.send_event: {msg}"]
        raised := false } := by
  simp [AsyncEventBus.emit, h]

/-- Witness for C5 at a concrete running bus whose transport raises. -/
theorem emit_transport_error_isolated_witness :
    exRunningBus.emit exEvent exNoSpan (.error "boom") =
      { bus := { exRunningBus with queue := [stampEvent exEvent exNoSpan] }
        sentToTransport := some (stampEvent exEvent exNoSpan)
        enqueued := some (stampEvent exEvent exNoSpan)
        logs := ["Error in transport.send_event: boom"]
        raised := false } :=
  emit_transport_error_isolated exRunningBus exEvent exNoSpan "boom" rfl

/-- Claim C10: once the singleton exists, `AsyncEventBus.get` returns it with
the listener map, queue, task handle, running flag and stop event unchanged;
the transport field is replaced exactly when a non-`None` transport argument
is given. -/
theorem get_existing_instance_frame (b : AsyncEventBus) (t : Option TransportInst) :
    (AsyncEventBus.get (some b) t).listeners = b.listeners ∧
    (AsyncEventBus.get (some b) t).queue = b.queue ∧
    (AsyncEventBus.get (some b) t).task = b.task ∧
    (AsyncEventBus.get (some b) t).running = b.running ∧
    (AsyncEventBus.get (some b) t).stopEventSet = b.stopEventSet ∧
    (AsyncEventBus.get (some b) t).transport = t.getD b.transport := by
  cases t <;> simp [AsyncEventBus.get]

/-- Claim C7: `create_transport` fails exactly when the type is `"http"` with
a falsy endpoint, or the type is none of `"none"`, `"console"`, `"http"`;
otherwise it returns the transport matching the discriminant, built from the
settings. -/
theorem create_transport_cases (s : LoggerSettings) :
    (exceptIsOk (create_transport s) = false ↔
      (s.type = "http" ∧ optStrTruthy s.http_endpoint = false) ∨
      (s.type ≠ "none" ∧ s.type ≠ "console" ∧ s.type ≠ "http")) ∧
    (s.type = "none" → create_transport s = .ok .noop) ∧
    (s.type = "console" → create_transport s = .ok .console) ∧
    (s.type = "http" → optStrTruthy s.http_endpoint = true →
      create_transport s = .ok (.http (HTTPTransport.init (s.http_endpoint.getD "")
        (s.http_headers.getD []) s.batch_size s.http_timeout))) := by
  unfold create_transport
  by_cases h1 : s.type = "none"
  · simp [h1, exceptIsOk]
  · by_cases h2 : s.type = "console"
    · simp [h1, h2, exceptIsOk]
    · by_cases h3 : s.type = "http"
      · by_cases h4 : optStrTruthy s.http_endpoint = true
        · simp [h1, h2, h3, h4, exceptIsOk]
        · simp only [Bool.not_eq_true] at h4
          simp [h1, h2, h3, h4, exceptIsOk]
      · simp [h1, h2, h3, exceptIsOk]

/-- Witness for C7: `"none"` settings succeed with a no-op transport; `"http"`
settings without an endpoint fail; an unrecognized type fails. -/
theorem create_transport_cases_witness :
    create_transport ⟨"none", none, none, 100, 5⟩ = .ok .noop ∧
    exceptIsOk (create_transport ⟨"http", none, none, 100, 5⟩) = false ∧
    exceptIsOk (create_transport ⟨"kafka", none, none, 100, 5⟩) = false ∧
    create_transport ⟨"http", some "http://x", none, 100, 5⟩ =
      .ok (.http (HTTPTransport.init "http://x" [] 100 5)) := by
  refine ⟨(create_transport_cases _).2.1 rfl, ?_, ?_, ?_⟩
  · exact (create_transport_cases _).1.mpr (Or.inl ⟨rfl, rfl⟩)
  · exact (create_transport_cases _).1.mpr (Or.inr ⟨by decide, by decide, by decide⟩)
  · exact (create_transport_cases _).2.2.2 rfl rfl

/-! Helper lemmas about the hex formatting used for trace injection. -/

lemma hexCharsAux_length_le : ∀ (fuel n k : Nat), n < 16 ^ k →
    (hexCharsAux fuel n).length ≤ k := by
  intro fuel
  induction fuel with
  | zero => intro n k _; simp [hexCharsAux]
  | succ fuel ih =>
    intro n k h
    unfold hexCharsAux
    by_cases hn : n = 0
    · simp [hn]
    · rw [if_neg hn]
      cases k with
      | zero =>
        exfalso
        simp [pow_zero] at h
        omega
      | succ k' =>
        have hdiv : n / 16 < 16 ^ k' := by
          rw [Nat.div_lt_iff_lt_mul (by norm_num : 0 < 16)]
          calc n < 16 ^ (k' + 1) := h
            _ = 16 ^ k' * 16 := pow_succ 16 k'
        have := ih (n / 16) k' hdiv
        simp only [List.length_append, List.length_singleton]
        omega

lemma hexDigitChar_lower (d : Nat) (h : d < 16) :
    isLowerHexChar (hexDigitChar d) = true := by
  interval_cases d <;> decide

lemma hexCharsAux_lower : ∀ (fuel n : Nat), ∀ c ∈ hexCharsAux fuel n,
    isLowerHexChar c = true := by
  intro fuel
  induction fuel with
  | zero => intro n c hc; simp [hexCharsAux] at hc
  | succ fuel ih =>
    intro n c hc
    unfold hexCharsAux at hc
    by_cases hn : n = 0
    · simp [hn] at hc
    · rw [if_neg hn] at hc
      rcases List.mem_append.mp hc with h1 | h2
      · exact ih _ c h1
      · have hc2 : c = hexDigitChar (n % 16) := by simpa using h2
        rw [hc2]
        exact hexDigitChar_lower _ (Nat.mod_lt _ (by norm_num))

lemma pyHex_lower (n : Nat) : ∀ c ∈ pyHex n, isLowerHexChar c = true := by
  intro c hc
  unfold pyHex at hc
  by_cases hn : n = 0
  · simp [hn] at hc
    rw [hc]; decide
  · rw [if_neg hn] at hc
    exact hexCharsAux_lower n n c hc

lemma pyHex_length_le (n k : Nat) (hk : 1 ≤ k) (h : n < 16 ^ k) :
    (pyHex n).length ≤ k := by
  unfold pyHex
  by_cases hn : n = 0
  · simp [hn]; omega
  · rw [if_neg hn]
    exact hexCharsAux_length_le n n k h

lemma pyFormatHex_length (n w : Nat) (h : (pyHex n).length ≤ w) :
    (pyFormatHex n w).length = w := by
  have hmk : ∀ l : List Char, (String.mk l).length = l.length := fun _ => rfl
  unfold pyFormatHex
  rw [hmk]
  simp only [List.length_append, List.length_replicate]
  omega

lemma pyFormatHex_lower (n w : Nat) : isLowerHexString (pyFormatHex n w) = true := by
  have hdata : ∀ l : List Char, (String.mk l).data = l := fun _ => rfl
  unfold isLowerHexString pyFormatHex
  rw [hdata, List.all_eq_true]
  intro c hc
  rcases List.mem_append.mp hc with h1 | h2
  · have hc1 : c = Char.ofNat 48 := List.eq_of_mem_replicate h1
    rw [hc1]; decide
  · exact pyHex_lower n c h2

/-- Claim C8: on a running bus, if the ambient span is recording then `emit`
stamps `trace_id` with the span context's trace id as exactly 32 lowercase hex
digits and `span_id` as exactly 16 lowercase hex digits (the ids being 128-
and 64-bit values); if the span is not recording, the event is forwarded and
enqueued unchanged, so unset trace fields stay unset. -/
theorem emit_stamps_trace_ids (b : AsyncEventBus) (e : Event) (span : Span)
    (o : Except String Unit) (hrun : b.running = true) :
    (span.recording = true → span.ctx.trace_id < 2 ^ 128 → span.ctx.span_id < 2 ^ 64 →
      (b.emit e span o).enqueued = some { e with
          trace_id := some (pyFormatHex span.ctx.trace_id 32)
          span_id := some (pyFormatHex span.ctx.span_id 16) } ∧
      (pyFormatHex span.ctx.trace_id 32).length = 32 ∧
      isLowerHexString (pyFormatHex span.ctx.trace_id 32) = true ∧
      (pyFormatHex span.ctx.span_id 16).length = 16 ∧
      isLowerHexString (pyFormatHex span.ctx.span_id 16) = true) ∧
    (span.recording = false →
      (b.emit e span o).enqueued = some e ∧
      (b.emit e span o).sentToTransport = some e) := by
  constructor
  · intro hrec htr hsp
    refine ⟨?_, ?_, pyFormatHex_lower _ _, ?_, pyFormatHex_lower _ _⟩
    · simp [AsyncEventBus.emit, hrun, stampEvent, hrec]
    · apply pyFormatHex_length
      apply pyHex_length_le _ 32 (by norm_num)
      calc span.ctx.trace_id < 2 ^ 128 := htr
        _ = 16 ^ 32 := by norm_num
    · apply pyFormatHex_length
      apply pyHex_length_le _ 16 (by norm_num)
      calc span.ctx.span_id < 2 ^ 64 := hsp
        _ = 16 ^ 16 := by norm_num
  · intro hrec
    constructor <;> simp [AsyncEventBus.emit, hrun, stampEvent, hrec]

/-- A recording ambient span with small concrete ids, for the witnesses. -/
def exRecSpan : Span := { recording := true, ctx := { trace_id := 255, span_id := 10 } }

/-- Witness for C8 at a concrete running bus and recording span. -/
theorem emit_stamps_trace_ids_witness :
    (exRunningBus.emit exEvent exRecSpan (.ok ())).enqueued =
      some { exEvent with trace_id := some (pyFormatHex 255 32)
                          span_id := some (pyFormatHex 10 16) } ∧
    (pyFormatHex 255 32).length = 32 ∧
    isLowerHexString (pyFormatHex 255 32) = true := by
  have h := (emit_stamps_trace_ids exRunningBus exEvent exRecSpan (.ok ()) rfl).1
    rfl (by decide) (by decide)
  exact ⟨h.1, h.2.1, h.2.2.1⟩

/-! Helper lemmas about the listener lifecycle loops. -/

lemma runStarts_append_raiser (pre : List (String × Listener)) (nm : String)
    (l : Listener) (post : List (String × Listener))
    (hl : l.lifecycleAware = true) (hr : l.startRaises = true)
    (hpre : ∀ p ∈ pre, p.2.lifecycleAware = true → p.2.startRaises = false) :
    runStarts (pre ++ (nm, l) :: post) =
      ((pre.filter fun p => p.2.lifecycleAware).map Prod.fst, some nm) := by
  induction pre with
  | nil => simp [runStarts, hl, hr]
  | cons p ps ih =>
    obtain ⟨pn, pl⟩ := p
    have hp := hpre (pn, pl) (by simp)
    by_cases hpa : pl.lifecycleAware = true
    · have hnr : pl.startRaises = false := hp hpa
      rw [List.cons_append]
      unfold runStarts
      rw [if_pos hpa, if_neg (by simp [hnr])]
      rw [ih (fun q hq => hpre q (by simp [hq]))]
      simp [List.filter_cons, hpa]
    · rw [List.cons_append]
      unfold runStarts
      rw [if_neg hpa]
      rw [ih (fun q hq => hpre q (by simp [hq]))]
      simp [List.filter_cons, hpa]

lemma runStops_append_raiser (pre : List (String × Listener)) (nm : String)
    (l : Listener) (post : List (String × Listener))
    (hl : l.lifecycleAware = true) (hr : l.stopRaises = true)
    (hpre : ∀ p ∈ pre, p.2.lifecycleAware = true → p.2.stopRaises = false) :
    runStops (pre ++ (nm, l) :: post) =
      ((pre.filter fun p => p.2.lifecycleAware).map Prod.fst ++ [nm], some nm) := by
  induction pre with
  | nil => simp [runStops, hl, hr]
  | cons p ps ih =>
    obtain ⟨pn, pl⟩ := p
    have hp := hpre (pn, pl) (by simp)
    by_cases hpa : pl.lifecycleAware = true
    · have hnr : pl.stopRaises = false := hp hpa
      rw [List.cons_append]
      unfold runStops
      rw [if_pos hpa, if_neg (by simp [hnr])]
      rw [ih (fun q hq => hpre q (by simp [hq]))]
      simp [List.filter_cons, hpa]
    · rw [List.cons_append]
      unfold runStops
      rw [if_neg hpa]
      rw [ih (fun q hq => hpre q (by simp [hq]))]
      simp [List.filter_cons, hpa]

/-- Claim C9: if, while the bus is not running, some lifecycle-aware
listener's `start()` hook raises (and the listeners before it do not), the
exception propagates out of `AsyncEventBus.start`, the bus state is unchanged
(`_running` stays false, no background task is created, the stop event is not
cleared) and only the lifecycle-aware listeners registered before the raiser
completed their `start()` hook. -/
theorem start_listener_failure_aborts (b : AsyncEventBus)
    (pre post : List (String × Listener)) (nm : String) (l : Listener)
    (hrun : b.running = false)
    (hls : b.listeners = pre ++ (nm, l) :: post)
    (hl : l.lifecycleAware = true) (hr : l.startRaises = true)
    (hpre : ∀ p ∈ pre, p.2.lifecycleAware = true → p.2.startRaises = false) :
    b.start = { bus := b
                completed := (pre.filter fun p => p.2.lifecycleAware).map Prod.fst
                raised := true } := by
  unfold AsyncEventBus.start
  rw [if_neg (by simp [hrun])]
  rw [hls, runStarts_append_raiser pre nm l post hl hr hpre]

/-- A bus whose first lifecycle-aware listener raises from its `start()` and
whose second is well behaved. -/
def exStartFailBus : AsyncEventBus :=
  { transport := .noop
    listeners := [("bad", { lifecycleAware := true, startRaises := true, stopRaises := false }),
                  ("good", { lifecycleAware := true, startRaises := false, stopRaises := false })]
    queue := [], task := false, running := false, stopEventSet := true }

/-- Witness for C9: starting `exStartFailBus` raises, leaves the state
unchanged and completes no listener start. -/
theorem start_listener_failure_aborts_witness :
    exStartFailBus.start = { bus := exStartFailBus, completed := [], raised := true } :=
  start_listener_failure_aborts exStartFailBus []
    [("good", { lifecycleAware := true, startRaises := false, stopRaises := false })]
    "bad" { lifecycleAware := true, startRaises := true, stopRaises := false }
    rfl rfl rfl rfl (by simp)

/-- A running bus with two lifecycle-aware listeners: `L1` raises from its
`stop()` hook, `L2` is well behaved. -/
def exStopFailBus : AsyncEventBus :=
  { transport := .noop
    listeners := [("L1", { lifecycleAware := true, startRaises := false, stopRaises := true }),
                  ("L2", { lifecycleAware := true, startRaises := false, stopRaises := false })]
    queue := [], task := true, running := true, stopEventSet := false }

/-- Counterexample to C3: in `AsyncEventBus.stop` the per-listener `stop()`
calls are not wrapped, so when `L1.stop()` raises, the exception propagates
and `L2.stop()` is never invoked — the failure is not isolated. -/
theorem stop_listener_failure_not_isolated_cex :
    exStopFailBus.stop.raised = true ∧
    "L2" ∉ exStopFailBus.stop.stopped := by
  constructor
  · decide
  · decide

/-- Claim C3 as amended: if, while the bus is running, some lifecycle-aware
listener's `stop()` hook raises (and the listeners before it do not), the
exception propagates out of `AsyncEventBus.stop` and aborts the teardown loop:
`stop()` is invoked on the lifecycle-aware listeners up to and including the
raiser, and on none of the listeners registered after it.  (The earlier state
changes — running flag cleared, stop event set, queue drained, task cancelled
— have already happened.) -/
theorem stop_listener_failure_aborts (b : AsyncEventBus)
    (pre post : List (String × Listener)) (nm : String) (l : Listener)
    (hrun : b.running = true)
    (hls : b.listeners = pre ++ (nm, l) :: post)
    (hl : l.lifecycleAware = true) (hr : l.stopRaises = true)
    (hpre : ∀ p ∈ pre, p.2.lifecycleAware = true → p.2.stopRaises = false) :
    b.stop = { bus := { b with running := false, stopEventSet := true
                               queue := [], task := false }
               stopped := (pre.filter fun p => p.2.lifecycleAware).map Prod.fst ++ [nm]
               raised := true } := by
  unfold AsyncEventBus.stop
  rw [if_pos (by simp [hrun])]
  rw [hls, runStops_append_raiser pre nm l post hl hr hpre]
  rfl

/-- Witness for the amended C3: stopping `exStopFailBus` raises after invoking
only `L1`'s stop hook. -/
theorem stop_listener_failure_aborts_witness :
    exStopFailBus.stop =
      { bus := { exStopFailBus with running := false, stopEventSet := true
                                    queue := [], task := false }
        stopped := ["L1"], raised := true } :=
  stop_listener_failure_aborts exStopFailBus []
    [("L2", { lifecycleAware := true, startRaises := false, stopRaises := false })]
    "L1" { lifecycleAware := true, startRaises := false, stopRaises := true }
    rfl rfl rfl rfl (by simp)

lemma runSend_cons (t : HTTPTransport) (e : Event) (o : PostOutcome)
    (rest : List (Event × PostOutcome)) :
    runSend t ((e, o) :: rest) =
      ((runSend (t.send_event e o).1 rest).1,
       (match (t.send_event e o).2 with
        | some eff => eff.posted.toList
        | none => []) ++ (runSend (t.send_event e o).1 rest).2) := rfl

lemma runSend_cons_flush (t : HTTPTransport) (e : Event) (o : PostOutcome)
    (rest : List (Event × PostOutcome)) (eff : FlushEffect)
    (heff : (t.send_event e o).2 = some eff) :
    runSend t ((e, o) :: rest) =
      ((runSend (t.send_event e o).1 rest).1,
       eff.posted.toList ++ (runSend (t.send_event e o).1 rest).2) := by
  rw [runSend_cons, heff]

lemma runSend_cons_noflush (t : HTTPTransport) (e : Event) (o : PostOutcome)
    (rest : List (Event × PostOutcome))
    (heff : (t.send_event e o).2 = none) :
    runSend t ((e, o) :: rest) = runSend (t.send_event e o).1 rest := by
  rw [runSend_cons, heff]
  rfl

lemma runSend_invariant : ∀ (es : List (Event × PostOutcome)) (t : HTTPTransport),
    t.batch.length < t.batch_size →
    (runSend t es).1.batch_size = t.batch_size ∧
    (runSend t es).1.batch.length < t.batch_size ∧
    (∀ p ∈ (runSend t es).2, p.length = t.batch_size) ∧
    (runSend t es).2.flatten ++ (runSend t es).1.batch.map eventToDict =
      (t.batch ++ es.map Prod.fst).map eventToDict := by
  intro es
  induction es with
  | nil =>
    intro t h
    refine ⟨rfl, h, ?_, ?_⟩
    · intro p hp
      simp [runSend] at hp
    · simp [runSend]
  | cons eo rest ih =>
    obtain ⟨e, o⟩ := eo
    intro t h
    by_cases hge : t.batch.length + 1 ≥ t.batch_size
    · obtain ⟨h1, h2, eff, heff, hpost, _⟩ := send_event_flush t e o hge
      rw [runSend_cons_flush t e o rest eff heff, hpost]
      have hlt : (t.send_event e o).1.batch.length < (t.send_event e o).1.batch_size := by
        rw [h1, h2]
        simp
        omega
      obtain ⟨ih1, ih2, ih3, ih4⟩ := ih (t.send_event e o).1 hlt
      rw [h2] at ih1 ih2 ih3
      refine ⟨ih1, ih2, ?_, ?_⟩
      · intro p hp
        simp only [Option.toList_some, List.singleton_append, List.mem_cons] at hp
        rcases hp with hp | hp
        · rw [hp]
          simp
          omega
        · exact ih3 p hp
      · simp only [Option.toList_some, List.singleton_append, List.flatten_cons]
        rw [List.append_assoc, ih4, h1]
        simp [List.map_append]
    · have hnone : t.send_event e o = ({ t with batch := t.batch ++ [e] }, none) :=
        send_event_no_flush t e o (by omega)
      rw [runSend_cons_noflush t e o rest (by rw [hnone])]
      rw [hnone]
      have hlt : ({ t with batch := t.batch ++ [e] } : HTTPTransport).batch.length <
          ({ t with batch := t.batch ++ [e] } : HTTPTransport).batch_size := by
        simp
        omega
      obtain ⟨ih1, ih2, ih3, ih4⟩ := ih _ hlt
      refine ⟨ih1, ih2, ih3, ?_⟩
      rw [ih4]
      simp [List.map_append]

/-- Claim C2: starting from a fresh `HTTPTransport`, a sequence of
`send_event` calls followed by `stop()` flushes exactly when the buffer
reaches `batch_size` (every in-run flush payload has exactly `batch_size`
records), `stop()` flushes precisely when a non-empty remainder is buffered,
and the serialized flush payloads concatenate to the serialization of the
whole event sequence — every event sent exactly once, none lost, none
duplicated, the buffer cleared after each flush attempt. -/
theorem http_batching_exactly_once (ep : String) (hs : List (String × String))
    (b tmo : Nat) (hb : 1 ≤ b) (es : List (Event × PostOutcome)) (o : PostOutcome) :
    (∀ p ∈ (runSend (HTTPTransport.init ep hs b tmo) es).2, p.length = b) ∧
    ((runSend (HTTPTransport.init ep hs b tmo) es).2.flatten ++
        (((runSend (HTTPTransport.init ep hs b tmo) es).1.stop o).2.elim []
          fun eff => eff.posted.getD []) =
      (es.map Prod.fst).map eventToDict) ∧
    (((runSend (HTTPTransport.init ep hs b tmo) es).1.stop o).2.isSome = true ↔
      (runSend (HTTPTransport.init ep hs b tmo) es).1.batch ≠ []) ∧
    ((runSend (HTTPTransport.init ep hs b tmo) es).1.stop o).1.batch = [] := by
  have hinit : (HTTPTransport.init ep hs b tmo).batch.length <
      (HTTPTransport.init ep hs b tmo).batch_size := by
    simp [HTTPTransport.init]
    omega
  obtain ⟨hsize, hlt, hlens, hjoin⟩ :=
    runSend_invariant es (HTTPTransport.init ep hs b tmo) hinit
  have hbsz : (HTTPTransport.init ep hs b tmo).batch_size = b := rfl
  rw [hbsz] at hsize hlens
  by_cases hb1 : (runSend (HTTPTransport.init ep hs b tmo) es).1.batch = []
  · rw [stop_empty _ o hb1]
    refine ⟨hlens, ?_, by simp [hb1], ?_⟩
    · simp only [Option.elim_none, List.append_nil]
      rw [hb1] at hjoin
      simpa using hjoin
    · simpa using hb1
  · obtain ⟨hsb, eff, heff, hpost, _⟩ := stop_nonempty _ o hb1
    rw [heff]
    refine ⟨hlens, ?_, by simp [hb1], hsb⟩
    simp only [Option.elim_some, hpost, Option.getD_some]
    simpa using hjoin

/-- Three events paired with POST outcomes (one success, one 500, one
connection error), for the C2 witness. -/
def exSends : List (Event × PostOutcome) :=
  [(exEvent, .resp 200 ""),
   ({ exEvent with message := "second" }, .resp 500 "err"),
   ({ exEvent with message := "third" }, .exn "connection refused")]

/-- Witness for C2: with `batch_size = 2` and three events, the flush payloads
(one automatic batch of two, one remainder flushed by `stop`) concatenate to
the serialized event sequence even though both POSTs fail or error. -/
theorem http_batching_exactly_once_witness :
    ((runSend (HTTPTransport.init "http://x" [] 2 5) exSends).2.flatten ++
        (((runSend (HTTPTransport.init "http://x" [] 2 5) exSends).1.stop
            (.resp 200 "ok")).2.elim [] fun eff => eff.posted.getD []) =
      (exSends.map Prod.fst).map eventToDict) ∧
    (∀ p ∈ (runSend (HTTPTransport.init "http://x" [] 2 5) exSends).2, p.length = 2) :=
  have h := http_batching_exactly_once "http://x" [] 2 5 (by norm_num) exSends (.resp 200 "ok")
  ⟨h.2.1, h.1⟩
